import Mathlib

/-!
Shallow embedding of the `shell_gpt` fork (files `sgpt/role.py`, `sgpt/app.py`,
`sgpt/utils.py`) and verification of the specification claims about it.

The role store (a directory of `<name>.json` files) is modelled as an
association list from role names to records.  Environment lookups
(`platform.system()`, `os.getenv`, config values) are passed as explicit
parameters.  Python strings become Lean `String`s; Python exceptions become
`Except` results.
-/

/-- Exceptions raised by the modelled Python code paths. -/
inductive PyExc where
  | indexError
  | fileNotFoundError
  deriving DecidableEq, Repr

/-- Embedding of the Python substring test `needle in hay` on character
lists: leftmost search for `needle` as a contiguous subsequence. -/
def containsSeq (needle : List Char) : List Char → Bool
  | [] => needle.isEmpty
  | c :: rest => needle.isPrefixOf (c :: rest) || containsSeq needle rest

/-- Embedding of the Python substring test `needle in hay` on strings. -/
def pyIn (needle hay : String) : Bool :=
  containsSeq needle.data hay.data

/-- Splitter for the Python `str.split(sep)` call with a non-empty separator
`a :: tl`: splits at every leftmost non-overlapping occurrence.  Structural
recursion on a fuel argument (callers pass the input length, which always
suffices because each step consumes at least one character). -/
def splitSeqF (a : Char) (tl : List Char) : Nat → List Char → List (List Char)
  | _, [] => [[]]
  | 0, l => [l]
  | fuel + 1, c :: rest =>
    if (a :: tl).isPrefixOf (c :: rest) then
      [] :: splitSeqF a tl fuel (rest.drop tl.length)
    else
      match splitSeqF a tl fuel rest with
      | [] => [[c]]
      | h :: t => (c :: h) :: t

/-- Embedding of Python `s.split(sep)`.  The source only ever calls it with
non-empty separators (`"You are "`, `os.pathsep`); an empty separator (a
`ValueError` in Python) is mapped to `[s]` and never exercised. -/
def pySplit (s sep : String) : List String :=
  match sep.data with
  | [] => [s]
  | a :: tl => (splitSeqF a tl s.data.length s.data).map String.mk

/-- Character-level splitter for iterating `sys.stdin`: Python text-stream
iteration yields the lines of the input with their trailing newline kept. -/
def splitKeepEnds : List Char → List (List Char)
  | [] => []
  | c :: rest =>
    if c = Char.ofNat 10 then [c] :: splitKeepEnds rest
    else
      match splitKeepEnds rest with
      | [] => [[c]]
      | h :: t => (c :: h) :: t

/-- The lines produced by iterating a text stream holding `s`
(line breaks kept, as Python file iteration does). -/
def stdinLines (s : String) : List String :=
  (splitKeepEnds s.data).map String.mk

/-- The opening-brace character, written by code point to keep string
literals free of braces. -/
def lbrace : Char := Char.ofNat 123

/-- The closing-brace character. -/
def rbrace : Char := Char.ofNat 125

mutual

/-- Scanner for Python `str.format(**vars)` restricted to the plain
`\x7bkey\x7d` fields that appear in the role templates: copies characters
until an opening brace starts a field. -/
def pyFormatGo (vars : List (String × String)) : List Char → List Char
  | [] => []
  | c :: rest =>
    if c = lbrace then pyFormatKey vars [] rest
    else c :: pyFormatGo vars rest

/-- Reads a field name up to the closing brace and substitutes its value.
All templates in the source supply every key they mention, so the missing-key
`KeyError` path is never exercised and maps to the empty string. -/
def pyFormatKey (vars : List (String × String)) (acc : List Char) : List Char → List Char
  | [] => []
  | c :: rest =>
    if c = rbrace then ((vars.lookup (String.mk acc)).getD "").data ++ pyFormatGo vars rest
    else pyFormatKey vars (acc ++ [c]) rest

end

/-- Embedding of Python `s.format(**vars)` as used by `sgpt/role.py`. -/
def pyFormat (s : String) (vars : List (String × String)) : String :=
  String.mk (pyFormatGo vars s.data)

/-! ## `sgpt/role.py`: template constants (copied verbatim, including the
leading newline and the trailing spaces of the triple-quoted literals) -/

/-- `SHELL_ROLE` from `sgpt/role.py`. -/
def SHELL_ROLE : String :=
  "\n仅提供 {os} 的 {shell} 命令，不包含任何描述。 \n如果细节不足，请提供最合理的解决方案。 \n确保输出是有效的 shell 命令。 \n如果需要多个步骤，请尝试使用 && 将它们组合在一起。 \n仅提供纯文本，不使用 Markdown 格式。\n"

/-- `DESCRIBE_SHELL_ROLE` from `sgpt/role.py`. -/
def DESCRIBE_SHELL_ROLE : String :=
  "\n提供给定 shell 命令的简洁单句描述。 \n描述命令的每个参数和选项。 \n用大约 80 个词提供简短的回答。 \n尽可能使用 Markdown 格式。\n"

/-- `CODE_ROLE` from `sgpt/role.py` (apostrophes written as `\x27`). -/
def CODE_ROLE : String :=
  "\n返回结果仅包含代码，没有任何描述。\n以纯文本格式提供代码，不使用 Markdown 格式。\n不允许包含如 ``` 或 ```python 等符号.\n如果细节不足，请提供最合理的解决方案。\n不允许要求提供更多详情。\n例如，如果提示是 \"Hello world Python\"，你应该返回 \"print(\x27Hello world\x27)\"。\n"

/-- `DEFAULT_ROLE` from `sgpt/role.py`. -/
def DEFAULT_ROLE : String :=
  "\n你是编程和系统管理助手。 \n你正在使用 {shell} shell 管理 {os} 操作系统。 \n除非特别要求提供更多详情，否则请用大约 100 个词提供简短回答。 \n如果需要存储任何数据，请假设数据将存储在对话中。 \n尽可能使用 Markdown 格式。\n"

/-- `ROLE_TEMPLATE` from `sgpt/role.py`.  The fork replaced the upstream
`"You are \x7bname\x7d\n\x7brole\x7d"` template (left commented out in the
source) with this constant string containing no format fields. -/
def ROLE_TEMPLATE : String := "你是YiboLiu设计并改进的ShellGPT"

/-! ## `sgpt/role.py`: the role store and its operations -/

/-- The persisted JSON record of a role (`self.__dict__`): its `name` and
`role` fields. -/
structure RoleRecord where
  name : String
  role : String
  deriving DecidableEq, Repr

/-- The role storage directory, as a map from role name (the `.json` file
stem) to the stored record. -/
abbrev RoleStore := List (String × RoleRecord)

/-- Look a role name up in the store (`(storage / f"...json").exists()` /
`read_text`). -/
def storeLookup : RoleStore → String → Option RoleRecord
  | [], _ => none
  | (k, r) :: rest, n => if k = n then some r else storeLookup rest n

/-- Write a record under a name (`file_path.write_text`), replacing any
existing record for that name. -/
def storeWrite : RoleStore → String → RoleRecord → RoleStore
  | [], n, r => [(n, r)]
  | (k, x) :: rest, n, r =>
    if k = n then (n, r) :: rest else (k, x) :: storeWrite rest n r

/-- Remove a name's record (`file_path.unlink()` on an existing file). -/
def storeRemove : RoleStore → String → RoleStore
  | [], _ => []
  | (k, x) :: rest, n => if k = n then rest else (k, x) :: storeRemove rest n

/-- `SystemRole.__init__`: formats the supplied role text with the variables
when a non-empty variables dict is given (Python truthiness of `variables`). -/
def mkRole (name role : String) (vars : List (String × String)) : RoleRecord :=
  { name := name, role := if vars.isEmpty then role else pyFormat role vars }

/-- The record actually persisted by `SystemRole._save`: before writing,
`self.role` is replaced by `ROLE_TEMPLATE.format(name=..., role=...)`. -/
def savedRecord (r : RoleRecord) : RoleRecord :=
  { r with role := pyFormat ROLE_TEMPLATE [("name", r.name), ("role", r.role)] }

/-- One iteration of `SystemRole.create_defaults`: persist the built-in role
only when no record with its name exists. -/
def defaultsStep (store : RoleStore) (r : RoleRecord) : RoleStore :=
  if (storeLookup store r.name).isSome then store
  else storeWrite store r.name (savedRecord r)

/-- The four built-in role names, in the order `create_defaults` visits them. -/
def defaultRoleNames : List String :=
  ["ShellGPT", "Shell Command Generator", "Shell Command Descriptor", "Code Generator"]

/-- `SystemRole.create_defaults`, with the shell and OS names (read from the
environment by `_shell_name` / `_os_name`) passed as parameters. -/
def create_defaults (store : RoleStore) (shellName osName : String) : RoleStore :=
  let vars := [("shell", shellName), ("os", osName)]
  [mkRole "ShellGPT" DEFAULT_ROLE vars,
   mkRole "Shell Command Generator" SHELL_ROLE vars,
   mkRole "Shell Command Descriptor" DESCRIBE_SHELL_ROLE vars,
   mkRole "Code Generator" CODE_ROLE []].foldl defaultsStep store

/-- The `BadArgumentUsage` message of `SystemRole.get`. -/
def roleNotFoundMsg (name : String) : String :=
  "Role \"" ++ name ++ "\" not found."

/-- `SystemRole.get`: load a persisted role by name, or raise
`BadArgumentUsage`.  Loading re-runs `__init__` on the stored fields with no
variables. -/
def SystemRole.get (store : RoleStore) (name : String) : Except String RoleRecord :=
  match storeLookup store name with
  | none => Except.error (roleNotFoundMsg name)
  | some r => Except.ok (mkRole r.name r.role [])

/-- `SystemRole._save` at store level: when a record with the same name
already exists, `typer.confirm(..., abort=True)` is issued and an unapproved
answer aborts; otherwise the record produced by `savedRecord` is written. -/
def SystemRole.save (store : RoleStore) (r : RoleRecord) (approveOverwrite : Bool) :
    Except String RoleStore :=
  if (storeLookup store r.name).isSome && !approveOverwrite then Except.error "Aborted"
  else Except.ok (storeWrite store r.name (savedRecord r))

/-- `SystemRole.create`: build a role from the prompted description and save
it. -/
def SystemRole.create (store : RoleStore) (name enteredRole : String)
    (approveOverwrite : Bool) : Except String RoleStore :=
  SystemRole.save store (mkRole name enteredRole []) approveOverwrite

/-- `SystemRole.delete`: a confirmation (`typer.confirm`, abort on refusal)
is issued only when the record exists; the `unlink` then runs
unconditionally, raising `FileNotFoundError` when there is no record.  The
first component lists the confirmation prompts issued. -/
def SystemRole.delete (store : RoleStore) (name : String) (approve : Bool) :
    List String × Except PyExc RoleStore :=
  if (storeLookup store name).isSome then
    if approve then
      (["Role \"" ++ name ++ "\" exist, delete it?"], Except.ok (storeRemove store name))
    else
      (["Role \"" ++ name ++ "\" exist, delete it?"], Except.error PyExc.fileNotFoundError)
  else
    ([], Except.error PyExc.fileNotFoundError)

/-- `SystemRole.same_role`: substring test for `f"You are \x7bself.name\x7d"`
in the transcript's initial message (Python truthiness guard on the empty
message). -/
def same_role (name initial_message : String) : Bool :=
  if initial_message = "" then false
  else pyIn ("You are " ++ name) initial_message

/-- Embedding of Python `str.strip()` with no argument: remove leading and
trailing whitespace (the messages involved use ASCII whitespace only). -/
def pyStrip (s : String) : String :=
  String.mk (((s.data.dropWhile Char.isWhitespace).reverse.dropWhile
    Char.isWhitespace).reverse)

/-- The first element of Python `str.splitlines()` for a non-empty string:
the characters before the first line break. -/
def firstLine (s : String) : String :=
  String.mk (s.data.takeWhile (fun c => !(c = Char.ofNat 10 || c = Char.ofNat 13)))

/-- `SystemRole.get_role_name`: `None` on an empty message; otherwise tests
`"You are" in message_lines[0]` and indexes `split("You are ")[1]`, which
raises `IndexError` when the separator does not occur. -/
def get_role_name (initial_message : String) : Except PyExc (Option String) :=
  if initial_message = "" then Except.ok none
  else
    let line0 := firstLine initial_message
    if pyIn "You are" line0 then
      match (pySplit line0 "You are ")[1]? with
      | some s => Except.ok (some (pyStrip s))
      | none => Except.error PyExc.indexError
    else Except.ok none

/-! ## `sgpt/utils.py`: `run_command` -/

/-- The apostrophe character used by `shlex.quote`. -/
def squote : Char := Char.ofNat 39

/-- The characters Python `shlex.quote` treats as safe: ASCII letters and
digits, underscore, and the punctuation at-sign, percent, plus, equals,
colon, comma, dot, slash and hyphen (the complement of `_find_unsafe`). -/
def shlexSafe (c : Char) : Bool :=
  (Char.ofNat 97 ≤ c && c ≤ Char.ofNat 122) ||
  (Char.ofNat 65 ≤ c && c ≤ Char.ofNat 90) ||
  (Char.ofNat 48 ≤ c && c ≤ Char.ofNat 57) ||
  c = Char.ofNat 95 || c = Char.ofNat 64 || c = Char.ofNat 37 ||
  c = Char.ofNat 43 || c = Char.ofNat 61 || c = Char.ofNat 58 ||
  c = Char.ofNat 44 || c = Char.ofNat 46 || c = Char.ofNat 47 ||
  c = Char.ofNat 45

/-- Embedding of Python `shlex.quote`. -/
def shlexQuote (s : String) : String :=
  if s = "" then String.mk [squote, squote]
  else if s.data.all shlexSafe then s
  else
    String.mk [squote]
      ++ s.replace (String.mk [squote]) (String.mk [squote, '\"', squote, '\"', squote])
      ++ String.mk [squote]

/-- `run_command` from `sgpt/utils.py`, returning the command string handed
to `os.system`.  `system` is `platform.system()`; `psModulePath` is
`os.getenv("PSModulePath")` (absent ↦ `none`); `psep` is `os.pathsep`;
`shellEnv` is `os.environ.get("SHELL")`. -/
def run_command (system : String) (psModulePath : Option String) (psep : String)
    (shellEnv : Option String) (command : String) : String :=
  if system = "Windows" then
    let is_powershell := 3 ≤ (pySplit (psModulePath.getD "") psep).length
    if is_powershell then "powershell.exe -Command \"" ++ command ++ "\""
    else "cmd.exe /c \"" ++ command ++ "\""
  else
    (shellEnv.getD "/bin/sh") ++ " -c " ++ shlexQuote command

/-! ## `sgpt/app.py`: stdin handling, option guards, handler dispatch and the
shell action loop -/

/-- The stdin block accumulated by `main`: lines are concatenated until the
first line containing the sentinel `__sgpt__eof__`, which is discarded
(`break`). -/
def readStdin : List String → String
  | [] => ""
  | l :: rest => if pyIn "__sgpt__eof__" l then "" else l ++ readStdin rest

/-- The effective prompt when stdin is piped:
`f"\x7bstdin\x7d\n\n\x7bprompt\x7d" if prompt else stdin`. -/
def effectivePrompt (stdinText promptArg : String) : String :=
  let block := readStdin (stdinLines stdinText)
  if promptArg ≠ "" then block ++ "\n\n" ++ promptArg else block

/-- Python truthiness of the optional string options (`chat`, `repl`,
`role`): `None` and the empty string are falsy. -/
def truthy (o : Option String) : Bool :=
  o.elim false (fun s => s != "")

/-- `sum((shell, describe_shell, code))`. -/
def intentCount (shell describe_shell code : Bool) : Nat :=
  shell.toNat + describe_shell.toNat + code.toNat

/-- The `BadArgumentUsage` message for conflicting assistance options. -/
def conflictMsg : String := "一次只能使用 --shell、--describe-shell 和 --code 选项中的一个。"

/-- The `BadArgumentUsage` message for `--chat` together with `--repl`. -/
def chatReplMsg : String := "--chat 和 --repl 选项不能同时使用。"

/-- The `BadArgumentUsage` message for `--editor` with piped stdin. -/
def editorStdinMsg : String := "--editor 选项不能与标准输入一起使用。"

/-- `DefaultRoles.check_get` from `sgpt/role.py`. -/
def DefaultRoles.check_get (store : RoleStore) (shell describe_shell code : Bool) :
    Except String RoleRecord :=
  if shell then SystemRole.get store "Shell Command Generator"
  else if describe_shell then SystemRole.get store "Shell Command Descriptor"
  else if code then SystemRole.get store "Code Generator"
  else SystemRole.get store "ShellGPT"

/-- Which handler `main` dispatches the completion request to. -/
inductive HandlerKind where
  | replHandler
  | chatHandler
  | defaultHandler
  deriving DecidableEq, Repr

/-- A completion request issued by `main`: the handler used, the system
role's name, and the prompt text handed over. -/
structure HandlerCall where
  kind : HandlerKind
  roleName : String
  promptText : String
  deriving DecidableEq, Repr

/-- The option-checking and dispatch sequence of `main` after stdin
processing: the three `BadArgumentUsage` guards in source order, then role
resolution (which may itself raise), then exactly one handler call.
The completion itself and `--editor` prompt editing are external I/O and are
not part of the result. -/
def mainRun (store : RoleStore) (shell describe_shell code : Bool)
    (chatOpt replOpt : Option String) (editor stdinPassed : Bool)
    (roleOpt : Option String) (promptText : String) :
    Except String (List HandlerCall) :=
  if 1 < intentCount shell describe_shell code then Except.error conflictMsg
  else if truthy chatOpt && truthy replOpt then Except.error chatReplMsg
  else if editor && stdinPassed then Except.error editorStdinMsg
  else
    match (if !truthy roleOpt then DefaultRoles.check_get store shell describe_shell code
           else SystemRole.get store (roleOpt.getD "")) with
    | Except.error e => Except.error e
    | Except.ok role =>
      if truthy replOpt then
        Except.ok [⟨HandlerKind.replHandler, role.name, promptText⟩]
      else if truthy chatOpt then
        Except.ok [⟨HandlerKind.chatHandler, role.name, promptText⟩]
      else
        Except.ok [⟨HandlerKind.defaultHandler, role.name, promptText⟩]

/-- A choice accepted by the shell action prompt
(`Choice(("e", "d", "a", "y"))`). -/
inductive ShellChoice where
  | e
  | d
  | a
  | y
  deriving DecidableEq, Repr

/-- The completion parameters forwarded unchanged by the shell action loop. -/
structure CompletionParams where
  model : String
  temperature : Rat
  top_p : Rat
  caching : Bool
  deriving DecidableEq, Repr

/-- An observable action of the shell action loop. -/
inductive LoopEvent where
  | execute (cmd : String)
  | describe (roleName : String) (promptText : String) (params : CompletionParams)
  deriving DecidableEq, Repr

/-- The `while shell and interaction` loop of `main`, driven by the sequence
of user choices: `e`/`y` run `run_command(full_completion)` and leave the
loop, `a` leaves the loop, `d` issues one completion request through
`DefaultHandler` under `DefaultRoles.DESCRIBE_SHELL` with `full_completion`
as the prompt and the same parameters, then continues.  `full_completion` is
never reassigned in the loop body. -/
def shellLoop (cmd : String) (p : CompletionParams) : List ShellChoice → List LoopEvent
  | [] => []
  | ShellChoice.e :: _ => [LoopEvent.execute cmd]
  | ShellChoice.y :: _ => [LoopEvent.execute cmd]
  | ShellChoice.a :: _ => []
  | ShellChoice.d :: cs =>
    LoopEvent.describe "Shell Command Descriptor" cmd p :: shellLoop cmd p cs

/-- The loop including its entry guard `while shell and interaction`. -/
def shellInteraction (shell interaction : Bool) (cmd : String) (p : CompletionParams)
    (choices : List ShellChoice) : List LoopEvent :=
  if shell && interaction then shellLoop cmd p choices else []

/-! ## Helper lemmas -/

/-- `containsSeq` decides the contiguous-subsequence relation. -/
theorem containsSeq_iff (needle hay : List Char) :
    containsSeq needle hay = true ↔ needle <:+: hay := by
  induction hay with
  | nil => simp [containsSeq, List.infix_nil, List.isEmpty_iff]
  | cons c rest ih =>
    simp [containsSeq, List.isPrefixOf_iff_prefix, List.infix_cons_iff, ih]

/-- A found non-empty needle's head occurs in the haystack. -/
theorem head_mem_of_containsSeq (y : Char) (tl hay : List Char)
    (h : containsSeq (y :: tl) hay = true) : y ∈ hay :=
  ((containsSeq_iff _ _).mp h).subset (List.mem_cons_self y tl)

/-- On brace-free input, the format scanner is the identity. -/
theorem pyFormatGo_eq_self (vars : List (String × String)) (l : List Char)
    (h : lbrace ∉ l) : pyFormatGo vars l = l := by
  induction l with
  | nil => rfl
  | cons c rest ih =>
    have hc : ¬ c = lbrace := fun hc => h (hc ▸ List.mem_cons_self c rest)
    have hr : lbrace ∉ rest := fun hr => h (List.mem_cons_of_mem c hr)
    rw [pyFormatGo, if_neg hc, ih hr]

/-- `str.format` on a brace-free string returns it unchanged. -/
theorem pyFormat_eq_self (s : String) (vars : List (String × String))
    (h : lbrace ∉ s.data) : pyFormat s vars = s := by
  rw [pyFormat, pyFormatGo_eq_self vars s.data h]

/-- What `_save` persists: the record's body is always the constant
`ROLE_TEMPLATE`, whatever `name` and `role` it held. -/
theorem savedRecord_eq (r : RoleRecord) :
    savedRecord r = ⟨r.name, ROLE_TEMPLATE⟩ := by
  rw [savedRecord, pyFormat_eq_self _ _ (by decide)]

/-- Looking up after a write. -/
theorem storeLookup_write (store : RoleStore) (n : String) (r : RoleRecord) (m : String) :
    storeLookup (storeWrite store n r) m = if m = n then some r else storeLookup store m := by
  induction store with
  | nil =>
    by_cases h : n = m
    · simp [storeWrite, storeLookup, h]
    · simp [storeWrite, storeLookup, h, Ne.symm h]
  | cons p rest ih =>
    obtain ⟨k, x⟩ := p
    by_cases hk : k = n
    · subst hk
      by_cases hm : k = m
      · subst hm
        simp [storeWrite, storeLookup]
      · simp [storeWrite, storeLookup, hm, Ne.symm hm]
    · by_cases hm : k = m
      · subst hm
        have hmn : ¬ k = n := hk
        simp [storeWrite, storeLookup, hk, Ne.symm hmn, hmn, ih]
      · simp [storeWrite, storeLookup, hk, hm, ih]

/-- Looking up after one `create_defaults` step. -/
theorem storeLookup_defaultsStep (store : RoleStore) (r : RoleRecord) (m : String) :
    storeLookup (defaultsStep store r) m =
      if m = r.name ∧ storeLookup store r.name = none then some ⟨r.name, ROLE_TEMPLATE⟩
      else storeLookup store m := by
  rw [defaultsStep]
  rcases h : storeLookup store r.name with _ | x
  · rw [if_neg (by simp [h]), storeLookup_write, savedRecord_eq]
    by_cases hm : m = r.name <;> simp [hm, h]
  · rw [if_pos (by simp [h])]
    by_cases hm : m = r.name <;> simp [hm, h]

/-- `"You are <name>"` never occurs in the fork's constant `ROLE_TEMPLATE`,
whatever the name: the template contains no `Y` at all. -/
theorem youAre_not_in_template (name : String) :
    pyIn ("You are " ++ name) ROLE_TEMPLATE = false := by
  by_contra h
  rw [Bool.not_eq_false, pyIn, containsSeq_iff, String.data_append] at h
  have h2 : "You are ".data <:+: ROLE_TEMPLATE.data :=
    (List.prefix_append "You are ".data name.data).isInfix.trans h
  rw [← containsSeq_iff] at h2
  exact absurd h2 (by decide)

/-- Characterization of the store after `create_defaults`: exactly the
absent built-in names gain a record, whose body is the constant
`ROLE_TEMPLATE`; every other name's lookup is untouched. -/
theorem lookup_create_defaults (store : RoleStore) (sh os name : String) :
    storeLookup (create_defaults store sh os) name =
      if name ∈ defaultRoleNames ∧ storeLookup store name = none
      then some ⟨name, ROLE_TEMPLATE⟩
      else storeLookup store name := by
  simp only [create_defaults, List.foldl, storeLookup_defaultsStep, mkRole]
  by_cases h1 : name = "ShellGPT" <;>
    by_cases h2 : name = "Shell Command Generator" <;>
    by_cases h3 : name = "Shell Command Descriptor" <;>
    by_cases h4 : name = "Code Generator" <;>
    simp_all [defaultRoleNames]

/-- Equality of `Except` results is decidable, so concrete runs can be
checked by evaluation. -/
instance {ε α : Type} [DecidableEq ε] [DecidableEq α] : DecidableEq (Except ε α) := fun x y =>
  match x, y with
  | Except.ok a, Except.ok b =>
    if h : a = b then isTrue (by rw [h]) else isFalse (fun g => h (Except.ok.inj g))
  | Except.ok _, Except.error _ => isFalse (fun g => Except.noConfusion g)
  | Except.error _, Except.ok _ => isFalse (fun g => Except.noConfusion g)
  | Except.error e, Except.error f =>
    if h : e = f then isTrue (by rw [h]) else isFalse (fun g => h (Except.error.inj g))

/-! ## Claim theorems -/

/-- C1 counterexample: a role persisted through the registry (here a
user-created role saved under the name `ShellGPT`, whose supplied body even
starts with the claimed preamble) is stored with the constant fork body, so
the stored body does not begin with `"You are ShellGPT"`, `same_role`
applied to a transcript started with it returns `false`, and
`get_role_name` returns no name instead of `"ShellGPT"`. -/
theorem c1_counterexample :
    (savedRecord (mkRole "ShellGPT" "You are ShellGPT, a helper" [])).role = ROLE_TEMPLATE
    ∧ ("You are ShellGPT".data).isPrefixOf
        (savedRecord (mkRole "ShellGPT" "You are ShellGPT, a helper" [])).role.data = false
    ∧ same_role "ShellGPT"
        (savedRecord (mkRole "ShellGPT" "You are ShellGPT, a helper" [])).role = false
    ∧ get_role_name
        (savedRecord (mkRole "ShellGPT" "You are ShellGPT, a helper" [])).role
      = Except.ok none := by
  decide

/-- C1 (amended): every role persisted through the registry (built-in via
`create_defaults` or user-created via `create`) stores the constant body
`ROLE_TEMPLATE` (`你是YiboLiu设计并改进的ShellGPT`), independent of the
role's name and the caller-supplied text; consequently `same_role` applied
to the first line of a transcript started with that body returns `false`
for every role name, and `get_role_name` applied to it returns no name. -/
theorem c1_saved_body_constant (name suppliedRole : String)
    (vars : List (String × String)) :
    savedRecord (mkRole name suppliedRole vars) = ⟨name, ROLE_TEMPLATE⟩
    ∧ same_role name ROLE_TEMPLATE = false
    ∧ get_role_name ROLE_TEMPLATE = Except.ok none := by
  refine ⟨?_, ?_, ?_⟩
  · rw [savedRecord_eq]
    rfl
  · rw [same_role, if_neg (by decide), youAre_not_in_template]
  · decide

/-- C2 counterexample: starting from an empty store with shell name `bash`
and OS name `Linux/Ubuntu`, `create_defaults` followed by `get "ShellGPT"`
returns a role whose body is the constant fork template, which contains
neither substituted value even though `DEFAULT_ROLE` uses both
placeholders. -/
theorem c2_counterexample :
    SystemRole.get (create_defaults [] "bash" "Linux/Ubuntu") "ShellGPT"
      = Except.ok ⟨"ShellGPT", ROLE_TEMPLATE⟩
    ∧ pyIn "bash" ROLE_TEMPLATE = false
    ∧ pyIn "Linux/Ubuntu" ROLE_TEMPLATE = false := by
  refine ⟨?_, by decide, by decide⟩
  simp [SystemRole.get, lookup_create_defaults, defaultRoleNames, storeLookup, mkRole,
    savedRecord_eq]

/-- C2 (amended): starting from an empty role store, for each of the four
built-in role names, `create_defaults` followed by `get name` succeeds and
returns a role whose body is the constant `ROLE_TEMPLATE`: the shell/OS
substitution performed on the built-in templates at construction time is
discarded by `_save` and never reaches the stored body. -/
theorem c2_defaults_body_constant (shellName osName : String) :
    SystemRole.get (create_defaults [] shellName osName) "ShellGPT"
      = Except.ok ⟨"ShellGPT", ROLE_TEMPLATE⟩
    ∧ SystemRole.get (create_defaults [] shellName osName) "Shell Command Generator"
      = Except.ok ⟨"Shell Command Generator", ROLE_TEMPLATE⟩
    ∧ SystemRole.get (create_defaults [] shellName osName) "Shell Command Descriptor"
      = Except.ok ⟨"Shell Command Descriptor", ROLE_TEMPLATE⟩
    ∧ SystemRole.get (create_defaults [] shellName osName) "Code Generator"
      = Except.ok ⟨"Code Generator", ROLE_TEMPLATE⟩ := by
  refine ⟨?_, ?_, ?_, ?_⟩ <;>
    simp [SystemRole.get, lookup_create_defaults, defaultRoleNames, storeLookup, mkRole,
      savedRecord_eq]

/-- C7: `create_defaults` never modifies an existing record (including a
user-customized built-in) and writes only the built-in records that were
absent: a name's lookup changes exactly when it is a built-in name with no
record, in which case it gains the freshly saved default record. -/
theorem c7_create_defaults_frame (store : RoleStore) (sh os name : String) :
    storeLookup (create_defaults store sh os) name =
      if name ∈ defaultRoleNames ∧ storeLookup store name = none
      then some ⟨name, ROLE_TEMPLATE⟩
      else storeLookup store name :=
  lookup_create_defaults store sh os name

/-- C6: `get name` raises the role-not-found usage error exactly when the
store has no record for `name`; when a record exists, it returns a role
built from the stored `name` and `role` fields. -/
theorem c6_get_spec (store : RoleStore) (name : String) :
    (SystemRole.get store name = Except.error (roleNotFoundMsg name)
      ↔ storeLookup store name = none)
    ∧ (∀ r : RoleRecord, storeLookup store name = some r →
        SystemRole.get store name = Except.ok ⟨r.name, r.role⟩) := by
  constructor
  · rcases h : storeLookup store name with _ | r
    · simp [SystemRole.get, h]
    · simp [SystemRole.get, h, mkRole]
  · intro r h
    simp [SystemRole.get, h, mkRole]

/-- C6 witness: concrete instances of both directions. -/
theorem c6_get_spec_witness :
    SystemRole.get [("ShellGPT", ⟨"ShellGPT", "some body"⟩)] "ShellGPT"
      = Except.ok ⟨"ShellGPT", "some body"⟩ :=
  (c6_get_spec [("ShellGPT", ⟨"ShellGPT", "some body"⟩)] "ShellGPT").2
    ⟨"ShellGPT", "some body"⟩ (by decide)

/-- C10: for a role name with no persisted record, `delete` issues no
confirmation prompt at all and fails with `FileNotFoundError` from the
unconditional `unlink`, for either answer the user might have given. -/
theorem c10_delete_missing (store : RoleStore) (name : String) (approve : Bool)
    (h : storeLookup store name = none) :
    SystemRole.delete store name approve = ([], Except.error PyExc.fileNotFoundError) := by
  rw [SystemRole.delete, if_neg (by simp [h])]

/-- C10 witness: deleting from the empty store. -/
theorem c10_delete_missing_witness :
    SystemRole.delete [] "ShellGPT" true = ([], Except.error PyExc.fileNotFoundError) :=
  c10_delete_missing [] "ShellGPT" true (by decide)

/-- C5: whenever at least two of the `--shell`, `--describe-shell` and
`--code` intents are set, `main` fails with the conflicting-options usage
error and no handler call (hence no completion request) occurs. -/
theorem c5_conflicting_intents (store : RoleStore) (shell describe_shell code : Bool)
    (chatOpt replOpt : Option String) (editor stdinPassed : Bool)
    (roleOpt : Option String) (promptText : String)
    (h : 2 ≤ intentCount shell describe_shell code) :
    mainRun store shell describe_shell code chatOpt replOpt editor stdinPassed
      roleOpt promptText = Except.error conflictMsg := by
  rw [mainRun, if_pos (by omega)]

/-- C5 witness: `--shell --code` together. -/
theorem c5_conflicting_intents_witness :
    mainRun [] true false true none none false false none "hello"
      = Except.error conflictMsg :=
  c5_conflicting_intents [] true false true none none false false none "hello" (by decide)

/-- C8: on a non-Windows platform the invocation string is the `SHELL`
environment variable (default `/bin/sh`), `" -c "`, and the shell-quoted
command text as a single argument; on Windows it is the powershell form
exactly when `PSModulePath` split on the path separator has at least three
segments, and the `cmd.exe /c` form otherwise. -/
theorem c8_run_command (system : String) (psModulePath : Option String) (psep : String)
    (shellEnv : Option String) (command : String) :
    (system ≠ "Windows" →
      run_command system psModulePath psep shellEnv command
        = (shellEnv.getD "/bin/sh") ++ " -c " ++ shlexQuote command)
    ∧ (3 ≤ (pySplit (psModulePath.getD "") psep).length →
      run_command "Windows" psModulePath psep shellEnv command
        = "powershell.exe -Command \"" ++ command ++ "\"")
    ∧ ((pySplit (psModulePath.getD "") psep).length < 3 →
      run_command "Windows" psModulePath psep shellEnv command
        = "cmd.exe /c \"" ++ command ++ "\"") := by
  refine ⟨fun h => ?_, fun h => ?_, fun h => ?_⟩
  · rw [run_command, if_neg h]
  · simp [run_command, h]
  · simp [run_command, Nat.not_le.mpr h]

/-- C8 witness: a POSIX invocation with a space-containing command, a
Windows invocation with a three-segment `PSModulePath`, and a Windows
invocation with `PSModulePath` unset. -/
theorem c8_run_command_witness :
    run_command "Linux" none ";" none "echo hi"
      = ((none : Option String).getD "/bin/sh") ++ " -c " ++ shlexQuote "echo hi"
    ∧ run_command "Windows" (some "a;b;c") ";" none "dir"
      = "powershell.exe -Command \"dir\""
    ∧ run_command "Windows" none ";" none "dir" = "cmd.exe /c \"dir\"" :=
  ⟨(c8_run_command "Linux" none ";" none "echo hi").1 (by decide),
   (c8_run_command "Windows" (some "a;b;c") ";" none "dir").2.1 (by decide),
   (c8_run_command "Windows" none ";" none "dir").2.2 (by decide)⟩

/-- The stdin block equals the concatenation of the lines strictly before
the first line containing the sentinel. -/
theorem readStdin_takeWhile (ls : List String) :
    readStdin ls
      = (ls.takeWhile fun l => !(pyIn "__sgpt__eof__" l)).foldr (fun a b => a ++ b) "" := by
  induction ls with
  | nil => rfl
  | cons l rest ih =>
    rw [readStdin]
    by_cases h : pyIn "__sgpt__eof__" l = true
    · simp [h]
    · have h2 : pyIn "__sgpt__eof__" l = false := by
        revert h
        cases pyIn "__sgpt__eof__" l <;> simp
      rw [if_neg h, ih]
      simp [h2]

/-- C3: with piped stdin, the effective prompt is the concatenation (line
breaks preserved) of the stdin lines strictly before the first line
containing `__sgpt__eof__` (the sentinel line itself discarded), followed by
`"\n\n"` and the prompt argument when that is non-empty, and the stdin
block alone otherwise; in particular the spec's concrete example holds and
the `REMAINDER` line after the sentinel is not part of the prompt. -/
theorem c3_effective_prompt (s p : String) :
    effectivePrompt s p
      = (if p ≠ "" then
          ((stdinLines s).takeWhile fun l => !(pyIn "__sgpt__eof__" l)).foldr
              (fun a b => a ++ b) "" ++ "\n\n" ++ p
        else
          ((stdinLines s).takeWhile fun l => !(pyIn "__sgpt__eof__" l)).foldr
              (fun a b => a ++ b) "")
    ∧ effectivePrompt "line1\nline2\n__sgpt__eof__\nREMAINDER\n" "Q"
      = "line1\nline2\n\n\nQ" := by
  constructor
  · rw [effectivePrompt, readStdin_takeWhile]
  · decide

/-- C4: the trace of the shell action loop is fully determined: every
leading `d` choice issues exactly one describe request under the built-in
descriptor role with the held command text and the unchanged parameters and
returns to prompting; the first non-`d` choice either executes the held
command exactly once (`e`/`y`) or aborts with no execution (`a`); the held
command text is never modified across iterations. -/
theorem c4_shell_loop_trace (cmd : String) (p : CompletionParams) (cs : List ShellChoice) :
    shellLoop cmd p cs
      = (cs.takeWhile fun c => c == ShellChoice.d).map
            (fun _ => LoopEvent.describe "Shell Command Descriptor" cmd p)
          ++ (match cs.dropWhile fun c => c == ShellChoice.d with
              | [] => []
              | ShellChoice.a :: _ => []
              | _ :: _ => [LoopEvent.execute cmd]) := by
  induction cs with
  | nil => rfl
  | cons c rest ih =>
    cases c
    · rfl
    · simpa [shellLoop, List.takeWhile_cons, List.dropWhile_cons] using ih
    · rfl
    · rfl

/-- The splitter never returns the empty list. -/
theorem splitSeqF_ne_nil (a : Char) (tl : List Char) (fuel : Nat) (l : List Char) :
    splitSeqF a tl fuel l ≠ [] := by
  match fuel, l with
  | _, [] => simp [splitSeqF]
  | 0, c :: rest => simp [splitSeqF]
  | fuel + 1, c :: rest =>
    rw [splitSeqF]
    split
    · simp
    · split <;> simp

/-- With enough fuel, the split has at least two parts exactly when the
separator occurs in the input. -/
theorem two_le_splitSeqF_iff (a : Char) (tl : List Char) :
    ∀ (fuel : Nat) (l : List Char), l.length ≤ fuel →
      (2 ≤ (splitSeqF a tl fuel l).length ↔ containsSeq (a :: tl) l = true) := by
  intro fuel
  induction fuel with
  | zero =>
    intro l hl
    have : l = [] := List.eq_nil_of_length_eq_zero (Nat.le_zero.mp hl)
    subst this
    simp [splitSeqF, containsSeq]
  | succ fuel ih =>
    intro l hl
    match l with
    | [] => simp [splitSeqF, containsSeq]
    | c :: rest =>
      rw [splitSeqF, containsSeq]
      by_cases hp : (a :: tl).isPrefixOf (c :: rest) = true
      · rw [if_pos hp, hp]
        simp only [Bool.true_or, iff_true, List.length_cons]
        have hne := splitSeqF_ne_nil a tl fuel (rest.drop tl.length)
        rcases hs : splitSeqF a tl fuel (rest.drop tl.length) with _ | ⟨x, xs⟩
        · exact absurd hs hne
        · simp [hs]
      · rw [if_neg hp]
        have hb : (a :: tl).isPrefixOf (c :: rest) = false := by
          revert hp
          cases (a :: tl).isPrefixOf (c :: rest) <;> simp
        rw [hb, Bool.false_or]
        have hrest : rest.length ≤ fuel := by
          simp only [List.length_cons] at hl
          omega
        rcases hs : splitSeqF a tl fuel rest with _ | ⟨x, xs⟩
        · exact absurd hs (splitSeqF_ne_nil a tl fuel rest)
        · have := ih rest hrest
          rw [hs] at this
          simp only [List.length_cons] at this ⊢
          exact this

/-- The `split("You are ")` of a line has a second part exactly when
`"You are "` occurs in the line. -/
theorem two_le_pySplit_youAre (line : String) :
    2 ≤ (pySplit line "You are ").length ↔ pyIn "You are " line = true := by
  have hred : pySplit line "You are "
      = (splitSeqF 'Y' "ou are ".data line.data.length line.data).map String.mk := rfl
  rw [hred, List.length_map,
    two_le_splitSeqF_iff 'Y' "ou are ".data line.data.length line.data le_rfl]
  rw [pyIn]

/-- C9 counterexample: the initial message `"You are "` has a first line
that contains `"You are"` and contains `"You are "` only at its very end
(its split is `["", ""]`, so nothing follows the occurrence), yet
`get_role_name` does not raise `IndexError`: it returns the empty-string
role name. -/
theorem c9_counterexample :
    get_role_name "You are " = Except.ok (some "")
    ∧ pyIn "You are" "You are " = true
    ∧ pySplit "You are " "You are " = ["", ""] := by
  decide

/-- C9 (amended): for every non-empty initial message, `get_role_name`
raises `IndexError` exactly when the first line contains the substring
`"You are"` but does not contain the substring `"You are "` (with trailing
space) at all; in every other case it returns a value. -/
theorem c9_role_name_partial (msg : String) (h : msg ≠ "") :
    (get_role_name msg = Except.error PyExc.indexError)
      ↔ (pyIn "You are" (firstLine msg) = true
          ∧ pyIn "You are " (firstLine msg) = false) := by
  rw [get_role_name, if_neg h]
  by_cases hy : pyIn "You are" (firstLine msg) = true
  · rw [if_pos hy]
    rcases hg : (pySplit (firstLine msg) "You are ")[1]? with _ | s
    · simp only [hy, true_and, true_iff]
      have hlen : (pySplit (firstLine msg) "You are ").length ≤ 1 :=
        List.getElem?_eq_none_iff.mp hg
      have h2 : ¬ 2 ≤ (pySplit (firstLine msg) "You are ").length := by omega
      rw [two_le_pySplit_youAre] at h2
      revert h2
      cases pyIn "You are " (firstLine msg) <;> simp
    · have h1 : 1 < (pySplit (firstLine msg) "You are ").length := by
        rcases List.getElem?_eq_some_iff.mp hg with ⟨hlt, _⟩
        exact hlt
      have h2 : pyIn "You are " (firstLine msg) = true :=
        (two_le_pySplit_youAre (firstLine msg)).mp h1
      simp [h2]
  · rw [if_neg hy]
    simp only [iff_iff_implies_and_implies]
    constructor
    · intro hfalse
      exact absurd hfalse (by simp)
    · intro ⟨h1, _⟩
      exact absurd h1 hy

/-- C9 witness: at the message `"You are"` the hypothesis holds and both
sides of the equivalence are true (the code raises `IndexError` there). -/
theorem c9_role_name_partial_witness :
    ("You are" : String) ≠ ""
    ∧ ((get_role_name "You are" = Except.error PyExc.indexError)
        ↔ (pyIn "You are" (firstLine "You are") = true
            ∧ pyIn "You are " (firstLine "You are") = false)) :=
  ⟨by decide, c9_role_name_partial "You are" (by decide)⟩
